import Mathlib

/-!
Shallow embedding of the buffer-loading boundary layer of `vips/foreign.go`
(package `vips`): the format sniffer `DetermineImageType`, the option
resolver and format override, the BMP→PNG preprocessor `bmpToPNG`, and the
load dispatcher `vipsLoadFromBuffer`.

Byte buffers are `List Nat`; Go slice expressions `buf[lo:hi]` are modelled
by `goSlice`, which returns `none` exactly when the Go expression would
panic with "slice bounds out of range".  Calls into cgo (`C.load_*_buffer`),
the capability table `supportedImageTypes` (populated outside the embedded
source), the XML decoder used by `isSVG`, and the bitmap/PNG codecs used by
`bmpToPNG` are external collaborators and are modelled as components of a
`VipsEnv` environment record over which theorems quantify.
-/

namespace Vips

/-- A byte buffer (`[]byte`); each entry stands for one byte. -/
abbrev GoBytes := List Nat

/-- An opaque `*C.VipsImage` handle value; the Go-level pointer is
`Option VipsImage`, with `none` for `nil`. -/
abbrev VipsImage := Nat

/-- An opaque decoded `image.Image` produced by `bmp.Decode`. -/
abbrev GoImage := Nat

/-- Go `error` values reachable in `vipsLoadFromBuffer`: the sentinel
`ErrUnsupportedImageFormat`, and opaque errors produced by the collaborators
(`bmp.Decode`, `png.Encode`, `handleImageError`). -/
inductive GoError where
  | errUnsupportedImageFormat
  | goError (msg : String)
deriving DecidableEq, Repr

/-- The `ImageType` enum from foreign.go. -/
inductive ImageType where
  | unknown
  | gif
  | jpeg
  | magick
  | pdf
  | png
  | svg
  | tiff
  | webp
  | heif
  | bmp
deriving DecidableEq, Repr

/-- An `xml.Name` as populated by `encoding/xml` decoding. -/
structure XmlName where
  Space : String
  Local : String
deriving DecidableEq, Repr

/-- Go struct `importParams`: the parameter set of a decode configuration.  The
struct is declared elsewhere in the repository; its fields and their types are
reconstructed from their uses in `vipsLoadFromBuffer` (the default literal and
the `C.int`/`C.double`/`C.CString` casts at the call sites).  `dpi` and
`scale` are Go `float64`; no arithmetic is ever performed on them in the
embedded source, so they are modelled as exact rationals. -/
structure importParams where
  shrink : Int
  fail : Bool
  autorotate : Bool
  page : Int
  n : Int
  scale : Rat
  subifd : Int
  dpi : Rat
  unlimited : Bool
  thumbnail : Bool
  density : String
deriving DecidableEq, Repr

/-- Go struct `ImportOptions`: optional format override plus parameters. -/
structure ImportOptions where
  imageType : ImageType
  params : importParams
deriving DecidableEq, Repr

/-- Type `ImportOption`: a caller-supplied override mutator.  In Go it is a
function mutating `*ImportOptions` in place; here it is the corresponding
state transformer. -/
abbrev ImportOption := ImportOptions → ImportOptions

/-- Modelled from the spec: a caller-supplied override mutator that sets the
format override field (the option constructors live outside the embedded
source; §4.3 "each mutator may set any subset of fields, including the format
override"). -/
def withImageType (t : ImageType) : ImportOption :=
  fun options => { options with imageType := t }

/-- The environment of external collaborators of `vipsLoadFromBuffer`:
the process-wide capability table, the XML decoder used by `isSVG`, the
bitmap/PNG codecs used by `bmpToPNG`, the native cgo load primitives (each
returning a status code and the out-parameter image they set), and the
native-diagnostic translator `handleImageError`. -/
structure VipsEnv where
  /-- The `supportedImageTypes` capability table (populated once at startup,
  outside the embedded source). -/
  supportedImageTypes : ImageType → Bool
  /-- Result of `xml.Decoder.Decode` (with `Strict = false` and a
  charset-aware reader) into a struct expecting root `svg`: `none` when the
  decode returns an error, otherwise the populated `XMLName`. -/
  xmlDecodeSvg : GoBytes → Option XmlName
  /-- External `bmp.Decode` from golang.org/x/image/bmp. -/
  bmpDecode : GoBytes → Except GoError GoImage
  /-- External `png.Encode` from image/png (the bytes written to the buffer). -/
  pngEncode : GoImage → Except GoError GoBytes
  load_jpeg_buffer : GoBytes → Int → Int → Int → Int × Option VipsImage
  load_png_buffer : GoBytes → Int × Option VipsImage
  load_webp_buffer : GoBytes → Int → Int × Option VipsImage
  load_tiff_buffer : GoBytes → Int → Int → Int → Int → Int × Option VipsImage
  load_gif_buffer : GoBytes → Int → Int → Int × Option VipsImage
  load_pdf_buffer : GoBytes → Int → Int → Rat → Rat → Int × Option VipsImage
  load_svg_buffer : GoBytes → Rat → Rat → Int → Int × Option VipsImage
  load_heif_buffer : GoBytes → Int → Int → Int → Int × Option VipsImage
  load_magick_buffer : GoBytes → Int → Int → String → Int × Option VipsImage
  /-- Translator `handleImageError` of a failed load into a Go error. -/
  handleImageError : Option VipsImage → GoError

/-- Go slice expression `buf[lo:hi]`: `none` models the runtime panic when
the bounds are out of range. -/
def goSlice (buf : GoBytes) (lo hi : Nat) : Option GoBytes :=
  if lo ≤ hi ∧ hi ≤ buf.length then some ((buf.drop lo).take (hi - lo)) else none

/-- Go `bytes.Contains buf sub`: `sub` occurs as a contiguous run in `buf`. -/
def bytesContains : GoBytes → GoBytes → Bool
  | [], sub => sub.isEmpty
  | b :: rest, sub => List.isPrefixOf sub (b :: rest) || bytesContains rest sub

/-- Byte pattern `var jpeg = []byte("\xFF\xD8\xFF")` -/
def jpeg : GoBytes := [0xFF, 0xD8, 0xFF]

/-- Embeds `isJPEG`. -/
def isJPEG (buf : GoBytes) : Bool := List.isPrefixOf jpeg buf

/-- Byte pattern `var gifHeader = []byte("\x47\x49\x46")` -/
def gifHeader : GoBytes := [0x47, 0x49, 0x46]

/-- Embeds `isGIF`. -/
def isGIF (buf : GoBytes) : Bool := List.isPrefixOf gifHeader buf

/-- Byte pattern `var pngHeader = []byte("\x89\x50\x4E\x47")` -/
def pngHeader : GoBytes := [0x89, 0x50, 0x4E, 0x47]

/-- Embeds `isPNG`. -/
def isPNG (buf : GoBytes) : Bool := List.isPrefixOf pngHeader buf

/-- Byte pattern `var tifII = []byte("\x49\x49\x2A\x00")` -/
def tifII : GoBytes := [0x49, 0x49, 0x2A, 0x00]

/-- Byte pattern `var tifMM = []byte("\x4D\x4D\x00\x2A")` -/
def tifMM : GoBytes := [0x4D, 0x4D, 0x00, 0x2A]

/-- Embeds `isTIFF`. -/
def isTIFF (buf : GoBytes) : Bool :=
  List.isPrefixOf tifII buf || List.isPrefixOf tifMM buf

/-- Byte pattern `var webpHeader = []byte("\x57\x45\x42\x50")` ("WEBP") -/
def webpHeader : GoBytes := [0x57, 0x45, 0x42, 0x50]

/-- Embeds `isWEBP`: `bytes.Equal(buf[8:12], webpHeader)`; `none` models the panic
when `buf` is shorter than 12 bytes. -/
def isWEBP (buf : GoBytes) : Option Bool :=
  (goSlice buf 8 12).map (fun s => s == webpHeader)

/-- Byte pattern `var ftyp = []byte("ftyp")` -/
def ftyp : GoBytes := [0x66, 0x74, 0x79, 0x70]

/-- Byte pattern `var heic = []byte("heic")` -/
def heic : GoBytes := [0x68, 0x65, 0x69, 0x63]

/-- Byte pattern `var mif1 = []byte("mif1")` -/
def mif1 : GoBytes := [0x6D, 0x69, 0x66, 0x31]

/-- Byte pattern `var msf1 = []byte("msf1")` -/
def msf1 : GoBytes := [0x6D, 0x73, 0x66, 0x31]

/-- Byte pattern `var avif = []byte("avif")` -/
def avif : GoBytes := [0x61, 0x76, 0x69, 0x66]

/-- Embeds `isHEIF`: `bytes.Equal(buf[4:8], ftyp) && (buf[8:12] ∈ {heic, avif,
mif1, msf1})`, with the left-to-right short-circuit evaluation of Go; `none`
models the out-of-range panic. -/
def isHEIF (buf : GoBytes) : Option Bool := do
  let a ← goSlice buf 4 8
  if a == ftyp then
    let b ← goSlice buf 8 12
    pure (b == heic || b == avif || b == mif1 || b == msf1)
  else
    pure false

/-- Byte pattern `var svg = []byte("<svg")` -/
def svg : GoBytes := [0x3C, 0x73, 0x76, 0x67]

/-- Embeds `isSVG`, parameterized by the external XML decoder: look for `<svg` in
the first `min(1024, len)` bytes, then confirm by decoding the whole buffer
and checking the local name of the root.  (`math.Min(1024.0, float64(len(buf)))`
is exact here: both arguments round-trip through float64 without changing
which of the two is smaller, so it is `Nat.min`.) -/
def isSVG (xmlDecodeSvg : GoBytes → Option XmlName) (buf : GoBytes) : Bool :=
  let sub := buf.take (Nat.min 1024 buf.length)
  if bytesContains sub svg then
    match xmlDecodeSvg buf with
    | some name => name.Local == "svg"
    | none => false
  else
    false

/-- Byte pattern `var pdf = []byte("\x25\x50\x44\x46")` ("%PDF") -/
def pdf : GoBytes := [0x25, 0x50, 0x44, 0x46]

/-- Embeds `isPDF`. -/
def isPDF (buf : GoBytes) : Bool := List.isPrefixOf pdf buf

/-- Byte pattern `var bmpHeader = []byte("BM")` -/
def bmpHeader : GoBytes := [0x42, 0x4D]

/-- Embeds `isBMP`. -/
def isBMP (buf : GoBytes) : Bool := List.isPrefixOf bmpHeader buf

/-- Embeds `DetermineImageType`: the format sniffer, parameterized by the external
XML decoder consulted by `isSVG`.  `none` models a runtime panic inside one
of the detectors (out-of-range slice). -/
def DetermineImageType (xmlDecodeSvg : GoBytes → Option XmlName) (buf : GoBytes) :
    Option ImageType :=
  if buf.length < 12 then
    some .unknown
  else if isJPEG buf then
    some .jpeg
  else if isPNG buf then
    some .png
  else if isGIF buf then
    some .gif
  else if isTIFF buf then
    some .tiff
  else
    match isWEBP buf with
    | none => none
    | some true => some .webp
    | some false =>
      match isHEIF buf with
      | none => none
      | some true => some .heif
      | some false =>
        if isSVG xmlDecodeSvg buf then
          some .svg
        else if isPDF buf then
          some .pdf
        else if isBMP buf then
          some .bmp
        else
          some .unknown

/-- Embeds `IsTypeSupported`: query of the capability table (the one-time
`startupIfNeeded` initialization happens outside the embedded source; the
table is read-only afterwards, so it is a fixed function of the
environment). -/
def IsTypeSupported (env : VipsEnv) (imageType : ImageType) : Bool :=
  env.supportedImageTypes imageType

/-- Embeds `bmpToPNG`: decode through the portable bitmap codec, then re-encode the
decoded image as PNG; either failure propagates unchanged. -/
def bmpToPNG (env : VipsEnv) (src : GoBytes) : Except GoError GoBytes :=
  match env.bmpDecode src with
  | .error err => .error err
  | .ok i =>
    match env.pngEncode i with
    | .error err => .error err
    | .ok w => .ok w

/-- Outcome of `vipsLoadFromBuffer`: either a normal Go return of the
`(*C.VipsImage, ImageType, error)` triple, or a runtime panic (the `default`
branch of the dispatch switch, or an out-of-range slice in the sniffer). -/
inductive LoadResult where
  | ret (out : Option VipsImage) (imageType : ImageType) (err : Option GoError)
  | panicked
deriving DecidableEq, Repr

/-- Embeds `boolToInt` (declared elsewhere in the repository; reconstructed from its
use as a `bool` → `C.int`-argument conversion). -/
def boolToInt (b : Bool) : Int :=
  if b then 1 else 0

/-- The default `ImportOptions` literal of `vipsLoadFromBuffer` followed by
the `for _, option := range o { option(&options) }` loop: mutators are
applied in order to the fixed default record.  `imageType` here is the
initially detected type, read by the `autorotate` default. -/
def resolveOptions (imageType : ImageType) (o : List ImportOption) : ImportOptions :=
  let options : ImportOptions :=
    { imageType := .unknown
      params :=
        { shrink := 1
          fail := false
          autorotate := imageType == .heif
          page := 0
          n := 1
          scale := 1
          subifd := -1
          dpi := 72
          unlimited := false
          thumbnail := false
          density := "72x72" } }
  o.foldl (fun options option => option options) options

/-- The `if options.imageType != ImageTypeUnknown { imageType =
options.imageType }` step: a non-Unknown override replaces the sniffed
tag. -/
def resolveTag (sniffed overrideType : ImageType) : ImageType :=
  if overrideType != .unknown then overrideType else sniffed

/-- The `switch imageType` statement of `vipsLoadFromBuffer`: which native
load primitive is invoked for the resolved tag, with only the parameters
meaningful to that format forwarded, and the `(code, out)` pair it produces.
`none` is the `default` branch, i.e. `panic(ErrUnsupportedImageFormat)`. -/
def dispatchCall (env : VipsEnv) (src : GoBytes) (imageType : ImageType)
    (options : ImportOptions) : Option (Int × Option VipsImage) :=
  let p := options.params
  match imageType with
  | .jpeg => some (env.load_jpeg_buffer src p.shrink (boolToInt p.fail) (boolToInt p.autorotate))
  | .png => some (env.load_png_buffer src)
  | .webp => some (env.load_webp_buffer src p.shrink)
  | .tiff => some (env.load_tiff_buffer src p.page p.n (boolToInt p.autorotate) p.subifd)
  | .gif => some (env.load_gif_buffer src p.page p.n)
  | .pdf => some (env.load_pdf_buffer src p.page p.n p.dpi p.scale)
  | .svg => some (env.load_svg_buffer src p.dpi p.scale (boolToInt p.unlimited))
  | .heif => some (env.load_heif_buffer src p.page p.n (boolToInt p.thumbnail))
  | .magick => some (env.load_magick_buffer src p.page p.n p.density)
  | _ => none

/-- The dispatch switch of `vipsLoadFromBuffer` together with the status
check that follows it: a non-zero status is translated through
`handleImageError`, status 0 returns the out image and the resolved tag. -/
def dispatchLoad (env : VipsEnv) (src : GoBytes) (imageType : ImageType)
    (options : ImportOptions) : LoadResult :=
  match dispatchCall env src imageType options with
  | none => .panicked
  | some (code, out) =>
    if code != 0 then
      .ret none .unknown (some (env.handleImageError out))
    else
      .ret out imageType none

/-- The tail of `vipsLoadFromBuffer` after the BMP preprocessing: the
capability check (`IsTypeSupported`, failing fast with
`ErrUnsupportedImageFormat`), then the dispatch switch. -/
def loadSupported (env : VipsEnv) (src : GoBytes) (imageType : ImageType)
    (options : ImportOptions) : LoadResult :=
  if !IsTypeSupported env imageType then
    .ret none .unknown (some .errUnsupportedImageFormat)
  else
    dispatchLoad env src imageType options

/-- The tail of `vipsLoadFromBuffer` after tag resolution: the conditional
BMP→PNG preprocessing (substituting the transcoded buffer and tag PNG, or
aborting with the transcode error), then capability check and dispatch. -/
def loadResolved (env : VipsEnv) (src : GoBytes) (imageType : ImageType)
    (options : ImportOptions) : LoadResult :=
  if imageType == .bmp then
    match bmpToPNG env src with
    | .error err => .ret none .unknown (some err)
    | .ok src2 => loadSupported env src2 .png options
  else
    loadSupported env src imageType options

/-- Embeds `vipsLoadFromBuffer`: sniff the buffer, build the configuration from the
defaults plus the ordered override mutators, apply a non-Unknown format
override, preprocess BMP, check support, dispatch.  (The `runtime.KeepAlive`
pin and the informational `govipsLog` calls have no observable effect on the
returned triple and are not modelled.) -/
def vipsLoadFromBuffer (env : VipsEnv) (buf : GoBytes) (o : List ImportOption) : LoadResult :=
  match DetermineImageType env.xmlDecodeSvg buf with
  | none => .panicked
  | some imageType0 =>
    let options := resolveOptions imageType0 o
    loadResolved env buf (resolveTag imageType0 options.imageType) options

/-! Concrete environments used to instantiate the theorems below. -/

/-- An environment in which every format is supported, every native load
succeeds with handle 1, the bitmap codec decodes anything, and PNG encoding
yields the one-byte buffer `[1]`. -/
def envAllOk : VipsEnv where
  supportedImageTypes := fun _ => true
  xmlDecodeSvg := fun _ => none
  bmpDecode := fun _ => .ok 0
  pngEncode := fun _ => .ok [1]
  load_jpeg_buffer := fun _ _ _ _ => (0, some 1)
  load_png_buffer := fun _ => (0, some 1)
  load_webp_buffer := fun _ _ => (0, some 1)
  load_tiff_buffer := fun _ _ _ _ _ => (0, some 1)
  load_gif_buffer := fun _ _ _ => (0, some 1)
  load_pdf_buffer := fun _ _ _ _ _ => (0, some 1)
  load_svg_buffer := fun _ _ _ _ => (0, some 1)
  load_heif_buffer := fun _ _ _ _ => (0, some 1)
  load_magick_buffer := fun _ _ _ _ => (0, some 1)
  handleImageError := fun _ => .goError "load error"

/-- Like `envAllOk`, except the capability table marks exactly BMP
unsupported (the native engine has no BMP loader). -/
def envNoBmp : VipsEnv :=
  { envAllOk with supportedImageTypes := fun t => !(t == .bmp) }

/-- Like `envAllOk`, except the capability table marks every format
unsupported. -/
def envNoneSupported : VipsEnv :=
  { envAllOk with supportedImageTypes := fun _ => false }

/-- Like `envNoBmp`, except the bitmap codec rejects every buffer. -/
def envBmpFails : VipsEnv :=
  { envNoBmp with bmpDecode := fun _ => .error (.goError "bmp: unsupported") }

example : DetermineImageType envAllOk.xmlDecodeSvg [] = some .unknown := by decide

example :
    DetermineImageType envAllOk.xmlDecodeSvg
      [0x42, 0x4D, 0, 0, 0x66, 0x74, 0x79, 0x70, 1, 2, 3, 4] = some .bmp := by decide

example :
    DetermineImageType envAllOk.xmlDecodeSvg
      [0, 0, 0, 0, 0x66, 0x74, 0x79, 0x70, 0x68, 0x65, 0x69, 0x63] = some .heif := by
  decide

example :
    vipsLoadFromBuffer envNoBmp (List.replicate 12 0) [withImageType .bmp] =
      .ret (some 1) .png none := by decide

example :
    vipsLoadFromBuffer envNoneSupported [] [withImageType .png] =
      .ret none .unknown (some .errUnsupportedImageFormat) := by decide

example :
    vipsLoadFromBuffer envBmpFails (List.replicate 12 0) [withImageType .bmp] =
      .ret none .unknown (some (.goError "bmp: unsupported")) := by decide

/-! Helper lemmas about the sniffer. -/

theorem goSlice_eq_some (buf : GoBytes) (lo hi : Nat) (h1 : lo ≤ hi)
    (h2 : hi ≤ buf.length) :
    goSlice buf lo hi = some ((buf.drop lo).take (hi - lo)) := by
  unfold goSlice
  rw [if_pos ⟨h1, h2⟩]

theorem isWEBP_eq (buf : GoBytes) (h : 12 ≤ buf.length) :
    isWEBP buf = some ((buf.drop 8).take 4 == webpHeader) := by
  unfold isWEBP
  rw [goSlice_eq_some buf 8 12 (by omega) h]
  rfl

theorem isHEIF_eq (buf : GoBytes) (h : 12 ≤ buf.length) :
    isHEIF buf = some ((buf.drop 4).take 4 == ftyp &&
      ((buf.drop 8).take 4 == heic || (buf.drop 8).take 4 == avif ||
        (buf.drop 8).take 4 == mif1 || (buf.drop 8).take 4 == msf1)) := by
  unfold isHEIF
  rw [goSlice_eq_some buf 4 8 (by omega) (by omega),
    goSlice_eq_some buf 8 12 (by omega) h]
  simp only [Option.pure_def, Option.bind_eq_bind, Option.some_bind]
  cases hf : (buf.drop 4).take 4 == ftyp <;> rfl

/-- On a buffer that passed the 12-byte gate and missed the four prefix
rules, the sniffer reduces to the WEBP/HEIF offset tests followed by the
SVG/PDF/BMP checks. -/
theorem DetermineImageType_eq_of_ge (xmlDecodeSvg : GoBytes → Option XmlName)
    (buf : GoBytes) (hlen : 12 ≤ buf.length)
    (hj : isJPEG buf = false) (hp : isPNG buf = false)
    (hg : isGIF buf = false) (ht : isTIFF buf = false) :
    DetermineImageType xmlDecodeSvg buf =
      if (buf.drop 8).take 4 == webpHeader then some .webp
      else if (buf.drop 4).take 4 == ftyp &&
          ((buf.drop 8).take 4 == heic || (buf.drop 8).take 4 == avif ||
            (buf.drop 8).take 4 == mif1 || (buf.drop 8).take 4 == msf1) then some .heif
      else if isSVG xmlDecodeSvg buf then some .svg
      else if isPDF buf then some .pdf
      else if isBMP buf then some .bmp
      else some .unknown := by
  unfold DetermineImageType
  rw [if_neg (by omega), if_neg (by simp [hj]), if_neg (by simp [hp]),
    if_neg (by simp [hg]), if_neg (by simp [ht]), isWEBP_eq buf hlen, isHEIF_eq buf hlen]
  cases hw : (buf.drop 8).take 4 == webpHeader <;>
    cases hh : (buf.drop 4).take 4 == ftyp &&
      ((buf.drop 8).take 4 == heic || (buf.drop 8).take 4 == avif ||
        (buf.drop 8).take 4 == mif1 || (buf.drop 8).take 4 == msf1) <;>
    simp [hw, hh]

/-- The sniffer classifies SVG only when `isSVG` accepted the buffer. -/
theorem classify_svg_requires (xmlDecodeSvg : GoBytes → Option XmlName)
    (buf : GoBytes) (h : DetermineImageType xmlDecodeSvg buf = some .svg) :
    isSVG xmlDecodeSvg buf = true := by
  unfold DetermineImageType at h
  repeat' split at h
  all_goals first
    | assumption
    | exact absurd h (by decide)

/-! Helper lemmas about tag resolution. -/

theorem resolveTag_of_ne (sniffed t : ImageType) (h : t ≠ .unknown) :
    resolveTag sniffed t = t := by
  unfold resolveTag
  rw [if_pos]
  simpa using h

/-- Unfolding of the entry point once the sniffed tag is known. -/
theorem vipsLoadFromBuffer_eq (env : VipsEnv) (buf : GoBytes)
    (o : List ImportOption) (t0 : ImageType)
    (h0 : DetermineImageType env.xmlDecodeSvg buf = some t0) :
    vipsLoadFromBuffer env buf o =
      loadResolved env buf (resolveTag t0 (resolveOptions t0 o).imageType)
        (resolveOptions t0 o) := by
  unfold vipsLoadFromBuffer
  rw [h0]

/-! Claim theorems about the format sniffer. -/

/-- C8: for every buffer with length strictly less than 12 bytes, the
sniffer returns Unknown regardless of the contents of the buffer. -/
theorem short_buffer_unknown (xmlDecodeSvg : GoBytes → Option XmlName)
    (buf : GoBytes) (h : buf.length < 12) :
    DetermineImageType xmlDecodeSvg buf = some .unknown := by
  unfold DetermineImageType
  rw [if_pos h]

/-- Witness for C8: a 3-byte buffer carrying the JPEG signature is still
classified Unknown. -/
theorem short_buffer_unknown_witness :
    ([0xFF, 0xD8, 0xFF] : GoBytes).length < 12 ∧
      DetermineImageType envAllOk.xmlDecodeSvg [0xFF, 0xD8, 0xFF] = some .unknown :=
  ⟨by decide, short_buffer_unknown envAllOk.xmlDecodeSvg [0xFF, 0xD8, 0xFF] (by decide)⟩

/-- C9: the sniffer is total: for every buffer (and every behaviour of the
external XML decoder) it returns a format tag and never panics — in
particular the fixed-offset reads of the WEBP and HEIF detectors, modelled
as `goSlice` (which is `none` on an out-of-range access), are reached only
behind the 12-byte length gate and never go out of bounds. -/
theorem classify_total (xmlDecodeSvg : GoBytes → Option XmlName) (buf : GoBytes) :
    (DetermineImageType xmlDecodeSvg buf).isSome = true := by
  by_cases hlen : buf.length < 12
  · rw [short_buffer_unknown xmlDecodeSvg buf hlen]
    rfl
  · push_neg at hlen
    unfold DetermineImageType
    rw [if_neg (by omega), isWEBP_eq buf hlen, isHEIF_eq buf hlen]
    repeat' split
    all_goals first
      | rfl
      | simp_all

/-- C6: a buffer whose first min(1024, length) bytes contain `<svg` but for
which the confirmatory XML parse fails (returns an error) or yields a root
whose local name is not `svg` is never classified SVG. -/
theorem svg_substring_without_parse_not_svg (xmlDecodeSvg : GoBytes → Option XmlName)
    (buf : GoBytes)
    (hsub : bytesContains (buf.take (Nat.min 1024 buf.length)) svg = true)
    (hfail : ∀ name, xmlDecodeSvg buf = some name → ¬ name.Local = "svg") :
    DetermineImageType xmlDecodeSvg buf ≠ some .svg := by
  intro h
  have hsvg := classify_svg_requires xmlDecodeSvg buf h
  unfold isSVG at hsvg
  rw [if_pos hsub] at hsvg
  cases hx : xmlDecodeSvg buf with
  | none => rw [hx] at hsvg; cases hsvg
  | some name =>
    rw [hx] at hsvg
    exact hfail name hx (by simpa using hsvg)

/-- Witness for C6: `<svgzzzzzzzz` contains `<svg` in its head, the decoder
rejects it, and the sniffer classifies it Unknown, not SVG. -/
theorem svg_substring_without_parse_not_svg_witness :
    DetermineImageType envAllOk.xmlDecodeSvg
        [0x3C, 0x73, 0x76, 0x67, 0x7A, 0x7A, 0x7A, 0x7A, 0x7A, 0x7A, 0x7A, 0x7A] ≠
      some .svg :=
  svg_substring_without_parse_not_svg envAllOk.xmlDecodeSvg
    [0x3C, 0x73, 0x76, 0x67, 0x7A, 0x7A, 0x7A, 0x7A, 0x7A, 0x7A, 0x7A, 0x7A]
    (by decide) (fun name h => by cases h)

/-- C7: on a buffer of length at least 12 that matches none of the earlier
JPEG, PNG, GIF, or TIFF prefix rules, the sniffer returns WEBP exactly when
the four bytes at offset 8–12 are "WEBP"; nothing about the RIFF prefix at
offset 0–4 is consulted, so arbitrary leading 8 bytes are fine. -/
theorem webp_offset_classification (xmlDecodeSvg : GoBytes → Option XmlName)
    (buf : GoBytes) (hlen : 12 ≤ buf.length)
    (hj : isJPEG buf = false) (hp : isPNG buf = false)
    (hg : isGIF buf = false) (ht : isTIFF buf = false) :
    DetermineImageType xmlDecodeSvg buf = some .webp ↔
      goSlice buf 8 12 = some webpHeader := by
  rw [DetermineImageType_eq_of_ge xmlDecodeSvg buf hlen hj hp hg ht,
    goSlice_eq_some buf 8 12 (by omega) hlen]
  constructor
  · intro h
    rw [show (12 : Nat) - 8 = 4 from rfl]
    by_cases hw : (buf.drop 8).take 4 == webpHeader
    · simpa using hw
    · rw [if_neg (by simpa using hw)] at h
      exfalso
      repeat' split at h
      all_goals exact absurd h (by decide)
  · intro h
    have hw : (buf.drop 8).take 4 == webpHeader := by
      simpa using Option.some_injective _ h
    rw [if_pos (by simpa using hw)]

/-- Witness for C7: leading bytes `01 01 01 01 01 01 01 01` are not a RIFF
header, yet "WEBP" at offset 8 classifies WEBP. -/
theorem webp_offset_classification_witness :
    DetermineImageType envAllOk.xmlDecodeSvg
        [1, 1, 1, 1, 1, 1, 1, 1, 0x57, 0x45, 0x42, 0x50] = some .webp :=
  (webp_offset_classification envAllOk.xmlDecodeSvg
      [1, 1, 1, 1, 1, 1, 1, 1, 0x57, 0x45, 0x42, 0x50]
      (by decide) (by decide) (by decide) (by decide) (by decide)).2 (by decide)

/-- A 12-byte buffer starting with "BM", with "ftyp" at offset 4–8 and a
brand outside {heic, avif, mif1, msf1} at offset 8–12. -/
def bufBmpFtyp : GoBytes :=
  [0x42, 0x4D, 0, 0, 0x66, 0x74, 0x79, 0x70, 1, 2, 3, 4]

/-- C5 counterexample: `bufBmpFtyp` has `ftyp` at offset 4–8, a brand at
offset 8–12 that is none of `heic`/`avif`/`mif1`/`msf1`, and matches no
earlier sniffer rule (JPEG, PNG, GIF, TIFF, WEBP) — yet the sniffer
classifies it BMP, not Unknown, because the later BMP prefix rule still
runs. -/
theorem heif_other_brand_counterexample :
    12 ≤ bufBmpFtyp.length ∧
      goSlice bufBmpFtyp 4 8 = some ftyp ∧
      goSlice bufBmpFtyp 8 12 = some [1, 2, 3, 4] ∧
      ([1, 2, 3, 4] ≠ heic ∧ [1, 2, 3, 4] ≠ avif ∧
        [1, 2, 3, 4] ≠ mif1 ∧ [1, 2, 3, 4] ≠ msf1) ∧
      isJPEG bufBmpFtyp = false ∧ isPNG bufBmpFtyp = false ∧
      isGIF bufBmpFtyp = false ∧ isTIFF bufBmpFtyp = false ∧
      isWEBP bufBmpFtyp = some false ∧
      DetermineImageType envAllOk.xmlDecodeSvg bufBmpFtyp = some .bmp ∧
      DetermineImageType envAllOk.xmlDecodeSvg bufBmpFtyp ≠ some .unknown := by
  decide

/-- C5 (amended): on a buffer of length at least 12 with `ftyp` at offset
4–8 that matches none of the earlier rules, a brand in
{heic, avif, mif1, msf1} at offset 8–12 classifies HEIF; any other brand
does not classify HEIF — the buffer falls through to the later SVG, PDF and
BMP checks, and classifies Unknown only when none of those match either. -/
theorem heif_brand_classification (xmlDecodeSvg : GoBytes → Option XmlName)
    (buf : GoBytes) (hlen : 12 ≤ buf.length)
    (hj : isJPEG buf = false) (hp : isPNG buf = false)
    (hg : isGIF buf = false) (ht : isTIFF buf = false)
    (hw : isWEBP buf ≠ some true)
    (hftyp : goSlice buf 4 8 = some ftyp) :
    (∀ b, goSlice buf 8 12 = some b →
        (b = heic ∨ b = avif ∨ b = mif1 ∨ b = msf1) →
        DetermineImageType xmlDecodeSvg buf = some .heif) ∧
    (∀ b, goSlice buf 8 12 = some b →
        b ≠ heic → b ≠ avif → b ≠ mif1 → b ≠ msf1 →
        DetermineImageType xmlDecodeSvg buf ≠ some .heif ∧
        (isSVG xmlDecodeSvg buf = false → isPDF buf = false → isBMP buf = false →
          DetermineImageType xmlDecodeSvg buf = some .unknown)) := by
  have h48 : (buf.drop 4).take 4 = ftyp := by
    have := goSlice_eq_some buf 4 8 (by omega) (by omega)
    rw [this] at hftyp
    simpa using hftyp
  have hwebp : ((buf.drop 8).take 4 == webpHeader) = false := by
    rw [isWEBP_eq buf hlen] at hw
    cases hx : (buf.drop 8).take 4 == webpHeader
    · rfl
    · exact absurd (by rw [hx]) hw
  have hcl := DetermineImageType_eq_of_ge xmlDecodeSvg buf hlen hj hp hg ht
  rw [hwebp, h48] at hcl
  have hb : goSlice buf 8 12 = some ((buf.drop 8).take 4) := by
    simpa using goSlice_eq_some buf 8 12 (by omega) hlen
  constructor
  · intro b hbs hbrand
    have hbeq : (buf.drop 8).take 4 = b := by
      rw [hb] at hbs
      simpa using hbs
    rw [hcl, if_neg (by simp [hwebp]), if_pos]
    rw [hbeq]
    rcases hbrand with h | h | h | h <;> simp [h]
  · intro b hbs h1 h2 h3 h4
    have hbeq : (buf.drop 8).take 4 = b := by
      rw [hb] at hbs
      simpa using hbs
    have hbrand : ((buf.drop 8).take 4 == heic || (buf.drop 8).take 4 == avif ||
        (buf.drop 8).take 4 == mif1 || (buf.drop 8).take 4 == msf1) = false := by
      rw [hbeq]
      simp [h1, h2, h3, h4]
    rw [hcl, if_neg (by simp [hwebp]), if_neg (by simp [hbrand])]
    constructor
    · intro hsvgeq
      repeat' split at hsvgeq
      all_goals exact absurd hsvgeq (by decide)
    · intro hs hpd hbm
      rw [if_neg (by simp [hs]), if_neg (by simp [hpd]), if_neg (by simp [hbm])]

/-- Witness for C5: a minimal ISO-BMFF-shaped buffer with brand `heic`
classifies HEIF. -/
theorem heif_brand_classification_witness :
    DetermineImageType envAllOk.xmlDecodeSvg
        [0, 0, 0, 0, 0x66, 0x74, 0x79, 0x70, 0x68, 0x65, 0x69, 0x63] = some .heif :=
  (heif_brand_classification envAllOk.xmlDecodeSvg
      [0, 0, 0, 0, 0x66, 0x74, 0x79, 0x70, 0x68, 0x65, 0x69, 0x63]
      (by decide) (by decide) (by decide) (by decide) (by decide)
      (by decide) (by decide)).1
    heic (by decide) (Or.inl rfl)

/-! Claim theorem about the option resolver. -/

/-- The default decode configuration as documented in the spec (§4.3),
written from the wording of the spec: shrink=1, fail=false, autorotate=(true iff
the resolved tag is HEIF), page=0, frameCount=1, scale=1, subIFD=-1,
DPI=72, unlimitedBytes=false, thumbnail=false, density="72x72", and no
format override. -/
def specDefaultOptions (resolvedTag : ImageType) : ImportOptions where
  imageType := .unknown
  params :=
    { shrink := 1
      fail := false
      autorotate := resolvedTag == .heif
      page := 0
      n := 1
      scale := 1
      subifd := -1
      dpi := 72
      unlimited := false
      thumbnail := false
      density := "72x72" }

/-- C4: with zero override mutators applied, the resolved configuration is
exactly the documented default record, and its autorotate field is true if
and only if the resolved (sniffed, since there is no override) tag is
HEIF. -/
theorem zero_mutators_defaults (t0 : ImageType) :
    resolveOptions t0 [] = specDefaultOptions t0 ∧
      ((resolveOptions t0 []).params.autorotate = true ↔ t0 = .heif) := by
  constructor
  · rfl
  · show (t0 == .heif) = true ↔ t0 = .heif
    exact beq_iff_eq

/-! Claim theorems about the decode entry point. -/

/-- C1 counterexample: overriding the format to BMP while the capability
table marks BMP unsupported does not return UnsupportedFormat — the BMP→PNG
preprocessing runs first, the capability check then applies to PNG, and the
decode reaches the dispatch switch and succeeds with tag PNG. -/
theorem unsupported_override_bmp_counterexample :
    envNoBmp.supportedImageTypes .bmp = false ∧
      (resolveOptions .unknown [withImageType .bmp]).imageType = .bmp ∧
      vipsLoadFromBuffer envNoBmp (List.replicate 12 0) [withImageType .bmp] =
        .ret (some 1) .png none ∧
      vipsLoadFromBuffer envNoBmp (List.replicate 12 0) [withImageType .bmp] ≠
        .ret none .unknown (some .errUnsupportedImageFormat) := by
  decide

/-- C1 (amended): forcing the format override to a tag other than BMP that
the capability table marks unsupported makes the decode entry point return
the UnsupportedFormat error for every input buffer and every behaviour of
the native primitives — it never panics and never reaches the dispatch
switch (the result is this error for all environments agreeing on the
capability bit).  An override to BMP instead runs the BMP→PNG preprocessing
first, after which the capability check applies to PNG. -/
theorem unsupported_override_fails_fast (env : VipsEnv) (buf : GoBytes)
    (o : List ImportOption) (t0 : ImageType)
    (h0 : DetermineImageType env.xmlDecodeSvg buf = some t0)
    (hov : (resolveOptions t0 o).imageType ≠ .unknown)
    (hbmp : (resolveOptions t0 o).imageType ≠ .bmp)
    (hunsup : env.supportedImageTypes (resolveOptions t0 o).imageType = false) :
    vipsLoadFromBuffer env buf o =
      .ret none .unknown (some .errUnsupportedImageFormat) := by
  rw [vipsLoadFromBuffer_eq env buf o t0 h0, resolveTag_of_ne t0 _ hov]
  unfold loadResolved
  rw [if_neg (by simpa using hbmp)]
  unfold loadSupported
  rw [if_pos (by simp [IsTypeSupported, hunsup])]

/-- Witness for C1 (amended): overriding to PNG in an environment where
nothing is supported yields the UnsupportedFormat error. -/
theorem unsupported_override_fails_fast_witness :
    vipsLoadFromBuffer envNoneSupported [] [withImageType .png] =
      .ret none .unknown (some .errUnsupportedImageFormat) :=
  unsupported_override_fails_fast envNoneSupported [] [withImageType .png] .unknown
    (by decide) (by decide) (by decide) (by decide)

/-- C3: whenever the ordered override mutators leave a non-Unknown format
override in the resolved options, the rest of the decode — BMP
preprocessing, capability check, and dispatch, i.e. `loadResolved` — runs on
the overridden tag, and the sniffed tag is discarded. -/
theorem format_override_replaces_sniffed (env : VipsEnv) (buf : GoBytes)
    (o : List ImportOption) (t0 : ImageType)
    (h0 : DetermineImageType env.xmlDecodeSvg buf = some t0)
    (hov : (resolveOptions t0 o).imageType ≠ .unknown) :
    vipsLoadFromBuffer env buf o =
      loadResolved env buf (resolveOptions t0 o).imageType (resolveOptions t0 o) := by
  rw [vipsLoadFromBuffer_eq env buf o t0 h0, resolveTag_of_ne t0 _ hov]

/-- Witness for C3: with a JPEG override on an empty buffer (sniffed
Unknown), the pipeline is exactly the post-resolution pipeline at tag
JPEG. -/
theorem format_override_replaces_sniffed_witness :
    vipsLoadFromBuffer envAllOk [] [withImageType .jpeg] =
      loadResolved envAllOk []
        (resolveOptions .unknown [withImageType .jpeg]).imageType
        (resolveOptions .unknown [withImageType .jpeg]) :=
  format_override_replaces_sniffed envAllOk [] [withImageType .jpeg] .unknown
    (by decide) (by decide)

/-- C2: whenever the resolved tag is BMP: a transcode failure (bitmap decode
or PNG re-encode) aborts the whole decode with that error and nothing is
forwarded to the native engine; a transcode success substitutes the PNG
buffer and tag PNG for the remainder of the pipeline; and any successful
decode reports final resolved tag PNG, never BMP. -/
theorem loadSupported_ret_tag (env : VipsEnv) (src : GoBytes) (t : ImageType)
    (opts : ImportOptions) (h : Option VipsImage) (ty : ImageType)
    (hd : loadSupported env src t opts = .ret h ty none) : ty = t := by
  unfold loadSupported dispatchLoad at hd
  repeat' split at hd
  all_goals first
    | (injection hd with h1 h2 h3; exact h2.symm)
    | exact absurd hd (by simp)

theorem bmp_preprocessing (env : VipsEnv) (buf : GoBytes) (o : List ImportOption)
    (t0 : ImageType)
    (h0 : DetermineImageType env.xmlDecodeSvg buf = some t0)
    (hres : resolveTag t0 (resolveOptions t0 o).imageType = .bmp) :
    (∀ e, bmpToPNG env buf = .error e →
        vipsLoadFromBuffer env buf o = .ret none .unknown (some e)) ∧
    (∀ png2, bmpToPNG env buf = .ok png2 →
        vipsLoadFromBuffer env buf o =
          loadSupported env png2 .png (resolveOptions t0 o)) ∧
    (∀ h ty, vipsLoadFromBuffer env buf o = .ret h ty none → ty = .png) := by
  have hmain : vipsLoadFromBuffer env buf o =
      match bmpToPNG env buf with
      | .error err => .ret none .unknown (some err)
      | .ok src2 => loadSupported env src2 .png (resolveOptions t0 o) := by
    rw [vipsLoadFromBuffer_eq env buf o t0 h0, hres]
    unfold loadResolved
    rw [if_pos (show (ImageType.bmp == ImageType.bmp) = true from rfl)]
  refine ⟨?_, ?_, ?_⟩
  · intro e he
    rw [hmain, he]
  · intro png2 hp2
    rw [hmain, hp2]
  · intro h ty hret
    rw [hmain] at hret
    cases hbp : bmpToPNG env buf with
    | error e =>
      rw [hbp] at hret
      exact absurd hret (by simp)
    | ok png2 =>
      rw [hbp] at hret
      exact loadSupported_ret_tag env png2 .png (resolveOptions t0 o) h ty hret

/-- Witness for C2: a failing bitmap decode aborts the whole operation with
the codec error. -/
theorem bmp_preprocessing_witness :
    vipsLoadFromBuffer envBmpFails (List.replicate 12 0) [withImageType .bmp] =
      .ret none .unknown (some (.goError "bmp: unsupported")) :=
  (bmp_preprocessing envBmpFails (List.replicate 12 0) [withImageType .bmp] .unknown
      (by decide) (by decide)).1
    (.goError "bmp: unsupported") (by rfl)

/-- Modelled from the spec: the native load wrappers (`foreign.h` /
`foreign.c`, which are not part of the embedded source) set the out-parameter
image whenever they return status 0 — §4.5 "Success yields the native handle
and the final resolved tag".  An environment is well-behaved when each of
the nine load primitives satisfies this. -/
def NativeSetsHandle (env : VipsEnv) : Prop :=
  (∀ src a b c, (env.load_jpeg_buffer src a b c).1 = 0 →
      (env.load_jpeg_buffer src a b c).2.isSome = true) ∧
  (∀ src, (env.load_png_buffer src).1 = 0 →
      (env.load_png_buffer src).2.isSome = true) ∧
  (∀ src a, (env.load_webp_buffer src a).1 = 0 →
      (env.load_webp_buffer src a).2.isSome = true) ∧
  (∀ src a b c d, (env.load_tiff_buffer src a b c d).1 = 0 →
      (env.load_tiff_buffer src a b c d).2.isSome = true) ∧
  (∀ src a b, (env.load_gif_buffer src a b).1 = 0 →
      (env.load_gif_buffer src a b).2.isSome = true) ∧
  (∀ src a b c d, (env.load_pdf_buffer src a b c d).1 = 0 →
      (env.load_pdf_buffer src a b c d).2.isSome = true) ∧
  (∀ src a b c, (env.load_svg_buffer src a b c).1 = 0 →
      (env.load_svg_buffer src a b c).2.isSome = true) ∧
  (∀ src a b c, (env.load_heif_buffer src a b c).1 = 0 →
      (env.load_heif_buffer src a b c).2.isSome = true) ∧
  (∀ src a b c, (env.load_magick_buffer src a b c).1 = 0 →
      (env.load_magick_buffer src a b c).2.isSome = true)

theorem dispatchCall_sets (env : VipsEnv) (src : GoBytes) (t : ImageType)
    (opts : ImportOptions) (hn : NativeSetsHandle env)
    (code : Int) (out : Option VipsImage)
    (hc : dispatchCall env src t opts = some (code, out)) (h0 : code = 0) :
    out.isSome = true := by
  obtain ⟨n1, n2, n3, n4, n5, n6, n7, n8, n9⟩ := hn
  cases t <;> simp only [dispatchCall] at hc
  case unknown => cases hc
  case bmp => cases hc
  case jpeg =>
    injection hc with hc'
    have hm := n1 src opts.params.shrink (boolToInt opts.params.fail)
      (boolToInt opts.params.autorotate)
    rw [hc'] at hm
    exact hm h0
  case png =>
    injection hc with hc'
    have hm := n2 src
    rw [hc'] at hm
    exact hm h0
  case webp =>
    injection hc with hc'
    have hm := n3 src opts.params.shrink
    rw [hc'] at hm
    exact hm h0
  case tiff =>
    injection hc with hc'
    have hm := n4 src opts.params.page opts.params.n
      (boolToInt opts.params.autorotate) opts.params.subifd
    rw [hc'] at hm
    exact hm h0
  case gif =>
    injection hc with hc'
    have hm := n5 src opts.params.page opts.params.n
    rw [hc'] at hm
    exact hm h0
  case pdf =>
    injection hc with hc'
    have hm := n6 src opts.params.page opts.params.n opts.params.dpi opts.params.scale
    rw [hc'] at hm
    exact hm h0
  case svg =>
    injection hc with hc'
    have hm := n7 src opts.params.dpi opts.params.scale (boolToInt opts.params.unlimited)
    rw [hc'] at hm
    exact hm h0
  case heif =>
    injection hc with hc'
    have hm := n8 src opts.params.page opts.params.n (boolToInt opts.params.thumbnail)
    rw [hc'] at hm
    exact hm h0
  case magick =>
    injection hc with hc'
    have hm := n9 src opts.params.page opts.params.n opts.params.density
    rw [hc'] at hm
    exact hm h0

theorem dispatchLoad_ret (env : VipsEnv) (src : GoBytes) (t : ImageType)
    (opts : ImportOptions) (hn : NativeSetsHandle env)
    (h : Option VipsImage) (ty : ImageType) (e : Option GoError)
    (hd : dispatchLoad env src t opts = .ret h ty e) :
    (e ≠ none → h = none ∧ ty = .unknown) ∧
    (ty ≠ .unknown → h.isSome = true ∧ e = none) := by
  unfold dispatchLoad at hd
  cases hc : dispatchCall env src t opts with
  | none =>
    rw [hc] at hd
    cases hd
  | some pr =>
    obtain ⟨code, out⟩ := pr
    rw [hc] at hd
    change (if (code != 0) = true then
        LoadResult.ret none ImageType.unknown (some (env.handleImageError out))
      else LoadResult.ret out t none) = LoadResult.ret h ty e at hd
    by_cases h0 : (code != 0) = true
    · rw [if_pos h0] at hd
      injection hd with h1 h2 h3
      subst h1
      subst h2
      subst h3
      exact ⟨fun _ => ⟨rfl, rfl⟩, fun hty => absurd rfl hty⟩
    · rw [if_neg h0] at hd
      injection hd with h1 h2 h3
      have hcode : code = 0 := by simpa using h0
      have hsome := dispatchCall_sets env src t opts hn code out hc hcode
      exact ⟨fun hne => absurd h3.symm hne, fun _ => ⟨h1 ▸ hsome, h3.symm⟩⟩

theorem loadSupported_ret (env : VipsEnv) (src : GoBytes) (t : ImageType)
    (opts : ImportOptions) (hn : NativeSetsHandle env)
    (h : Option VipsImage) (ty : ImageType) (e : Option GoError)
    (hd : loadSupported env src t opts = .ret h ty e) :
    (e ≠ none → h = none ∧ ty = .unknown) ∧
    (ty ≠ .unknown → h.isSome = true ∧ e = none) := by
  unfold loadSupported at hd
  split at hd
  · injection hd with h1 h2 h3
    subst h1
    subst h2
    subst h3
    exact ⟨fun _ => ⟨rfl, rfl⟩, fun hty => absurd rfl hty⟩
  · exact dispatchLoad_ret env src t opts hn h ty e hd

theorem loadResolved_ret (env : VipsEnv) (src : GoBytes) (t : ImageType)
    (opts : ImportOptions) (hn : NativeSetsHandle env)
    (h : Option VipsImage) (ty : ImageType) (e : Option GoError)
    (hd : loadResolved env src t opts = .ret h ty e) :
    (e ≠ none → h = none ∧ ty = .unknown) ∧
    (ty ≠ .unknown → h.isSome = true ∧ e = none) := by
  unfold loadResolved at hd
  split at hd
  · cases hbp : bmpToPNG env src with
    | error er =>
      rw [hbp] at hd
      injection hd with h1 h2 h3
      subst h1
      subst h2
      subst h3
      exact ⟨fun _ => ⟨rfl, rfl⟩, fun hty => absurd rfl hty⟩
    | ok src2 =>
      rw [hbp] at hd
      exact loadSupported_ret env src2 .png opts hn h ty e hd
  · exact loadSupported_ret env src t opts hn h ty e hd

/-- C10: assuming the native wrappers set the out image on success (see
`NativeSetsHandle`), every error return of the decode entry point —
transcode failure, unsupported format, or non-zero native status — carries
a nil handle and resolved tag Unknown; and a non-Unknown resolved tag is
returned only together with a non-nil handle and no error. -/
theorem error_paths_nil_unknown (env : VipsEnv) (buf : GoBytes)
    (o : List ImportOption) (hn : NativeSetsHandle env)
    (h : Option VipsImage) (ty : ImageType) (e : Option GoError)
    (hres : vipsLoadFromBuffer env buf o = .ret h ty e) :
    (e ≠ none → h = none ∧ ty = .unknown) ∧
    (ty ≠ .unknown → h.isSome = true ∧ e = none) := by
  unfold vipsLoadFromBuffer at hres
  cases hdt : DetermineImageType env.xmlDecodeSvg buf with
  | none =>
    rw [hdt] at hres
    cases hres
  | some t0 =>
    rw [hdt] at hres
    exact loadResolved_ret env buf
      (resolveTag t0 (resolveOptions t0 o).imageType) (resolveOptions t0 o)
      hn h ty e hres

theorem envAllOk_native : NativeSetsHandle envAllOk :=
  ⟨fun _ _ _ _ _ => rfl, fun _ _ => rfl, fun _ _ _ => rfl,
    fun _ _ _ _ _ _ => rfl, fun _ _ _ _ => rfl, fun _ _ _ _ _ _ => rfl,
    fun _ _ _ _ _ => rfl, fun _ _ _ _ _ => rfl, fun _ _ _ _ _ => rfl⟩

/-- A 12-byte buffer with the JPEG signature. -/
def bufJPEG : GoBytes := [0xFF, 0xD8, 0xFF, 0, 0, 0, 0, 0, 0, 0, 0, 0]

/-- Witness for C10: a successful JPEG decode returns a set handle and no
error. -/
theorem error_paths_nil_unknown_witness :
    (some 1 : Option VipsImage).isSome = true ∧ (none : Option GoError) = none :=
  (error_paths_nil_unknown envAllOk bufJPEG [] envAllOk_native (some 1) .jpeg none
      (by decide)).2 (by decide)

end Vips
